import Mathlib

/-!
Verification development for the terminal multi-send extension core.

The TypeScript sources are embedded shallowly:

* `src/terminalStateManager.ts` — per-terminal readiness state machine
  (`TerminalState`, `TerminalTracker`, the event step function).
* `src/broadcaster.ts` — the broadcast dispatcher (`broadcastModel`,
  placeholder injection, busy filter, safety gates).
* the task automation manager (polling loop / task chain) and the chain
  script parser (`parseChainScript`, `waitForReadyState` polling loop).

Regex-based text heuristics (ANSI sanitising, prompt matching, the
"meaningful output" classifiers) are abstracted as function parameters:
the verified properties either quantify over their outcomes or hypothesise
exactly what the specification hypothesises about them.  Machine integers
are modelled as `Nat`; JavaScript string primitives (`replace`, `trim`,
`includes`, `toLowerCase`, `split`) are re-implemented over `List Char`
so that every definition is executable by the kernel.
-/

namespace TerminalNexus

/-- Does `pat` occur at the very beginning of `text`?  (List-level
`startsWith`, used by the JS string primitives below.) -/
def listHasPre : List Char → List Char → Bool
  | [], _ => true
  | _ :: _, [] => false
  | a :: as, b :: bs => a == b && listHasPre as bs

/-- Does `pat` occur anywhere inside `text`?  (JS `String.prototype.includes`.) -/
def textContains (pat : List Char) : List Char → Bool
  | [] => listHasPre pat []
  | c :: rest => listHasPre pat (c :: rest) || textContains pat rest

/-- Replace every (non-overlapping, left-to-right) occurrence of `pat` by
`rep`, as JS `String.prototype.replace` with a global literal pattern does.
Each step consumes at least one character, so `fuel = text.length` makes the
fuel-structured recursion total; an empty pattern never occurs in the
embedded code. -/
def replaceChars (pat rep : List Char) : Nat → List Char → List Char
  | _, [] => []
  | 0, text => text
  | fuel + 1, c :: rest =>
    if 0 < pat.length && listHasPre pat (c :: rest) then
      rep ++ replaceChars pat rep fuel ((c :: rest).drop pat.length)
    else
      c :: replaceChars pat rep fuel rest

/-- JS `command.replace(/pat/g, rep)` for a literal pattern. -/
def jsReplaceAll (s pat rep : String) : String :=
  String.mk (replaceChars pat.toList rep.toList s.toList.length s.toList)

/-- JS `String.prototype.trim`. -/
def jsTrim (s : String) : String :=
  String.mk (((s.toList.dropWhile Char.isWhitespace).reverse.dropWhile Char.isWhitespace).reverse)

/-- JS `String.prototype.toLowerCase` (ASCII range, which is all the
embedded code compares). -/
def jsToLower (s : String) : String :=
  String.mk (s.toList.map Char.toLower)

/-- JS `haystack.includes(needle)`. -/
def jsIncludes (haystack needle : String) : Bool :=
  textContains needle.toList haystack.toList

/-- The four terminal readiness states of `terminalStateManager.ts`. -/
inductive TerminalState where
  | IDLE
  | RUNNING_PROGRAM
  | CLI_WAITING
  | CLI_THINKING
deriving DecidableEq, Repr

/-- Predicate `isReadyState` from `terminalStateManager.ts`: `IDLE` and
`CLI_WAITING` are the states safe to broadcast into. -/
def isReadyState (state : TerminalState) : Bool :=
  state == TerminalState.IDLE || state == TerminalState.CLI_WAITING

/-- `Broadcaster.quoteForShell`: wrap in double quotes, escaping backslashes
first and double quotes second. -/
def quoteForShell (value : String) : String :=
  "\"" ++ jsReplaceAll (jsReplaceAll value "\\" "\\\\") "\"" "\\\"" ++ "\""

/-- `Broadcaster.injectPlaceholders`: substitute `\x7bindex\x7d`, then
`\x7bname:quoted\x7d`, then `\x7bname\x7d` (the order of the three chained
`replace` calls in the source). -/
def injectPlaceholders (command : String) (terminalName : String) (index : Nat) : String :=
  jsReplaceAll
    (jsReplaceAll
      (jsReplaceAll command "\x7bindex\x7d" (toString index))
      "\x7bname:quoted\x7d" (quoteForShell terminalName))
    "\x7bname\x7d" terminalName

/-! ## Chain script parser (`parseChainScript` and helpers) -/

instance instDecEqExcept {ε α : Type} [DecidableEq ε] [DecidableEq α] :
    DecidableEq (Except ε α) := fun a b =>
  match a, b with
  | Except.error e, Except.error f =>
    match decEq e f with
    | isTrue h => isTrue (by rw [h])
    | isFalse h => isFalse (by intro hh; injection hh with h2; exact h h2)
  | Except.error _, Except.ok _ => isFalse (by intro hh; exact Except.noConfusion hh)
  | Except.ok _, Except.error _ => isFalse (by intro hh; exact Except.noConfusion hh)
  | Except.ok x, Except.ok y =>
    match decEq x y with
    | isTrue h => isTrue (by rw [h])
    | isFalse h => isFalse (by intro hh; injection hh with h2; exact h h2)

/-- The `ChainStep` tagged union of the task automation manager. -/
inductive ChainStep where
  | command (command : String) (sourceLine : Nat)
  | delay (delayMs : Nat) (sourceLine : Nat)
  | waitReady (stableMs : Nat) (timeoutMs : Option Nat) (sourceLine : Nat)
deriving DecidableEq, Repr

/-- Split on the JS line separator regex: a newline optionally preceded
by a carriage return. -/
def splitLinesAux : List Char → List Char → List (List Char)
  | [], acc => [acc.reverse]
  | '\r' :: '\n' :: rest, acc => acc.reverse :: splitLinesAux rest []
  | '\n' :: rest, acc => acc.reverse :: splitLinesAux rest []
  | c :: rest, acc => splitLinesAux rest (c :: acc)

/-- JS `script.split(/\r?\n/)`. -/
def splitLines (s : String) : List String :=
  (splitLinesAux s.toList []).map String.mk

/-- Split on commas (JS `content.split(",")`). -/
def splitOnComma : List Char → List Char → List (List Char)
  | [], acc => [acc.reverse]
  | ',' :: rest, acc => acc.reverse :: splitOnComma rest []
  | c :: rest, acc => splitOnComma rest (c :: acc)

/-- Regex `/^\d+$/` on a string value. -/
def allDigits (s : String) : Bool :=
  !s.toList.isEmpty && s.toList.all Char.isDigit

/-- Decimal value of an all-digits string (`Number(rawValue)` on it). -/
def digitsToNat (cs : List Char) : Nat :=
  cs.foldl (fun acc c => acc * 10 + (c.toNat - 48)) 0

/-- Match one keyword alternative of the plain-directive regex
`/^(wait_ready|wait_idle|delay)\s*:\s*(.+)$/i` and return the raw value.
The surrounding line is already trimmed, so the captured value carries no
trailing whitespace and the subsequent `.trim()` is the identity. -/
def matchPlainDirectiveKw (kw : String) (line : String) : Option String :=
  if listHasPre kw.toList (jsToLower line).toList then
    match (line.toList.drop kw.length).dropWhile Char.isWhitespace with
    | ':' :: tail =>
      let value := tail.dropWhile Char.isWhitespace
      if value.isEmpty then none else some (String.mk value)
    | _ => none
  else none

/-- The full plain-directive regex: the three alternatives tried in the
source order, returning the lowercased keyword and the trimmed raw value. -/
def matchPlainDirective (line : String) : Option (String × String) :=
  match matchPlainDirectiveKw "wait_ready" line with
  | some v => some ("wait_ready", v)
  | none =>
    match matchPlainDirectiveKw "wait_idle" line with
    | some v => some ("wait_idle", v)
    | none =>
      match matchPlainDirectiveKw "delay" line with
      | some v => some ("delay", v)
      | none => none

/-- Regex `/^(wait_ready|wait_idle|delay)\s*:/i` (the malformed-plain-
directive check). -/
def matchesPlainKeyHead (line : String) : Bool :=
  ["wait_ready", "wait_idle", "delay"].any (fun kw =>
    listHasPre kw.toList (jsToLower line).toList &&
    (match ((jsToLower line).toList.drop kw.length).dropWhile Char.isWhitespace with
     | ':' :: _ => true
     | _ => false))

/-- Character class `[a-z_]` under the `i` flag. -/
def isKeyChar (c : Char) : Bool :=
  c.isAlpha || c == '_'

/-- Regex `/^([a-z_]+)\s*:\s*(\d+)$/i` on a directive segment, returning
the lowercased key and numeric value. -/
def matchFieldToken (segment : String) : Option (String × Nat) :=
  let cs := segment.toList
  let key := cs.takeWhile isKeyChar
  if key.isEmpty then none
  else
    match (cs.drop key.length).dropWhile Char.isWhitespace with
    | ':' :: tail =>
      let digits := tail.dropWhile Char.isWhitespace
      if !digits.isEmpty && digits.all Char.isDigit then
        some (String.mk (key.map Char.toLower), digitsToNat digits)
      else none
    | _ => none

/-- `Map.set` on the insertion-ordered field map (overwrite in place,
append otherwise), as the JS `Map` used by `parseDirectiveFields`. -/
def fieldsSet (fields : List (String × Nat)) (key : String) (value : Nat) :
    List (String × Nat) :=
  if fields.any (fun kv => kv.1 == key) then
    fields.map (fun kv => if kv.1 == key then (key, value) else kv)
  else fields ++ [(key, value)]

/-- `Map.get` on the field map. -/
def fieldsGet (fields : List (String × Nat)) (key : String) : Option Nat :=
  (fields.find? (fun kv => kv.1 == key)).map Prod.snd

/-- `Map.has` on the field map. -/
def fieldsHas (fields : List (String × Nat)) (key : String) : Bool :=
  fields.any (fun kv => kv.1 == key)

/-- `parseDirectiveFields` from the automation manager: split the brace
content on commas, trim, drop empty segments, and parse each `key: number`
token.  The JS `Number.isFinite`/negativity re-check cannot fire on an
all-digits capture and is subsumed by `matchFieldToken`. -/
def parseDirectiveFields (content : String) (sourceLine : Nat) :
    Except String (List (String × Nat)) :=
  let segments := ((splitOnComma content.toList []).map
      (fun cs => jsTrim (String.mk cs))).filter (fun s => !s.toList.isEmpty)
  if segments.isEmpty then
    Except.error ("Line " ++ toString sourceLine ++ ": empty directive.")
  else
    segments.foldlM (fun fields segment =>
      match matchFieldToken segment with
      | none =>
        Except.error ("Line " ++ toString sourceLine ++ ": invalid directive token \""
          ++ segment ++ "\". Use key: number.")
      | some (key, value) => Except.ok (fieldsSet fields key value)) []

/-- `ensureOnlyKeys`: first key (in insertion order) outside the allow
list produces the error. -/
def ensureOnlyKeys (fields : List (String × Nat)) (allowList : List String)
    (sourceLine : Nat) : Except String Unit :=
  match fields.find? (fun kv => !(allowList.contains kv.1)) with
  | some kv =>
    Except.error ("Line " ++ toString sourceLine ++ ": \"" ++ kv.1
      ++ "\" is not allowed here.")
  | none => Except.ok ()

/-- One iteration of the `parseChainScript` loop body: `Except.ok none`
for skipped blank/comment lines, otherwise the parsed step or the error. -/
def parseChainLine (rawLine : String) (sourceLine : Nat) :
    Except String (Option ChainStep) :=
  let line := jsTrim rawLine
  if line.toList.isEmpty || listHasPre ['#'] line.toList then
    Except.ok none
  else
    match matchPlainDirective line with
    | some kv =>
      if allDigits kv.2 then
        if kv.1 == "delay" then
          Except.ok (some (ChainStep.delay (digitsToNat kv.2.toList) sourceLine))
        else
          Except.ok (some (ChainStep.waitReady (digitsToNat kv.2.toList) none sourceLine))
      else
        Except.error ("Line " ++ toString sourceLine ++ ": invalid " ++ kv.1
          ++ " value \"" ++ kv.2 ++ "\". Use number milliseconds.")
    | none =>
      if matchesPlainKeyHead line then
        Except.error ("Line " ++ toString sourceLine
          ++ ": invalid directive syntax. Use e.g. \x7bwait_ready: 5000\x7d.")
      else if listHasPre ['\x7b'] line.toList && listHasPre ['\x7d'] line.toList.reverse then
        match parseDirectiveFields (String.mk ((line.toList.drop 1).dropLast)) sourceLine with
        | Except.error e => Except.error e
        | Except.ok fields =>
          if fieldsHas fields "delay" then
            match ensureOnlyKeys fields ["delay"] sourceLine with
            | Except.error e => Except.error e
            | Except.ok _ =>
              Except.ok (some (ChainStep.delay ((fieldsGet fields "delay").getD 0) sourceLine))
          else if fieldsHas fields "wait_ready" || fieldsHas fields "wait_idle" then
            if fieldsHas fields "wait_ready" && fieldsHas fields "wait_idle" then
              Except.error ("Line " ++ toString sourceLine
                ++ ": wait_ready and wait_idle cannot be used together.")
            else
              match ensureOnlyKeys fields ["wait_ready", "wait_idle", "timeout"] sourceLine with
              | Except.error e => Except.error e
              | Except.ok _ =>
                let stableMs := if fieldsHas fields "wait_ready" then
                    (fieldsGet fields "wait_ready").getD 0
                  else (fieldsGet fields "wait_idle").getD 0
                match fieldsGet fields "timeout" with
                | some t =>
                  if t < 1000 then
                    Except.error ("Line " ++ toString sourceLine ++ ": timeout must be >= 1000ms.")
                  else
                    Except.ok (some (ChainStep.waitReady stableMs (some t) sourceLine))
                | none => Except.ok (some (ChainStep.waitReady stableMs none sourceLine))
          else
            Except.error ("Line " ++ toString sourceLine ++ ": unknown directive.")
      else
        Except.ok (some (ChainStep.command rawLine sourceLine))

/-- The line loop of `parseChainScript`, carrying the 1-based line number. -/
def parseChainLines : List String → Nat → Except String (List ChainStep)
  | [], _ => Except.ok []
  | l :: rest, sourceLine =>
    match parseChainLine l sourceLine with
    | Except.error e => Except.error e
    | Except.ok none => parseChainLines rest (sourceLine + 1)
    | Except.ok (some step) =>
      match parseChainLines rest (sourceLine + 1) with
      | Except.error e => Except.error e
      | Except.ok steps => Except.ok (step :: steps)

/-- `parseChainScript`: split into lines and run the line loop; a thrown
parse error is the `Except.error` branch. -/
def parseChainScript (script : String) : Except String (List ChainStep) :=
  parseChainLines (splitLines script) 1

/-! ## The wait_ready polling loop (`TaskAutomationManager.waitForReadyState`) -/

/-- `READY_PROBE_INTERVAL_MS` constant of the automation manager. -/
def READY_PROBE_INTERVAL_MS : Nat := 200

/-- Outcome of one `waitForReadyState` call, tagged with the elapsed
wall-clock milliseconds at which the loop returned or threw. -/
inductive WaitOutcome where
  | completed (atMs : Nat)
  | failed (atMs : Nat) (message : String)
deriving DecidableEq, Repr

/-- The timeout error thrown by `waitForReadyState`; `(t + 500) / 1000`
is JS `Math.round(t / 1000)` for non-negative `t`. -/
def waitTimeoutMessage (stepIndex timeoutMs : Nat) : String :=
  "Step " ++ toString stepIndex ++ " wait_ready timed out after "
    ++ toString ((timeoutMs + 500) / 1000) ++ "s."

/-- `readySince.get` (JS `Map` keyed by terminal handle, modelled by id). -/
def sinceGet (m : List (Nat × Nat)) (k : Nat) : Option Nat :=
  (m.find? (fun kv => kv.1 == k)).map Prod.snd

/-- `readySince.delete`. -/
def sinceDelete (m : List (Nat × Nat)) (k : Nat) : List (Nat × Nat) :=
  m.filter (fun kv => kv.1 != k)

/-- The per-iteration ready-streak bookkeeping of `waitForReadyState`:
a target ready now keeps (or acquires) its streak start, a busy target
loses its entry. -/
def updateSince (isReadyNow : Nat → Bool) (now : Nat) (targets : List Nat)
    (m : List (Nat × Nat)) : List (Nat × Nat) :=
  targets.foldl (fun acc t =>
    if isReadyNow t then
      if (sinceGet acc t).isSome then acc else acc ++ [(t, now)]
    else sinceDelete acc t) m

/-- The `while (true)` body of `waitForReadyState`, iterated at the probe
interval; `now` is the elapsed time since `startAt`.  Cancellation (claim
C1) never fires in the scenarios proved here, so the run-active check is
elided; the fuel in `waitForReadyState` is sized so the timeout branch is
always reached first. -/
def waitForReadyLoop (isOpen isReady : Nat → Nat → Bool) (targets : List Nat)
    (stableMs timeoutMs stepIndex : Nat) :
    Nat → Nat → List (Nat × Nat) → WaitOutcome
  | 0, now, _ => WaitOutcome.failed now "out of fuel"
  | fuel + 1, now, readySince =>
    let activeTargets := targets.filter (fun t => isOpen now t)
    if activeTargets.isEmpty then
      WaitOutcome.failed now "All chain targets are closed."
    else
      let readySince2 := updateSince (fun t => isReady now t) now activeTargets readySince
      if activeTargets.all (fun t =>
          match sinceGet readySince2 t with
          | some since => stableMs ≤ now - since
          | none => false) then
        WaitOutcome.completed now
      else if timeoutMs < now then
        WaitOutcome.failed now (waitTimeoutMessage stepIndex timeoutMs)
      else
        waitForReadyLoop isOpen isReady targets stableMs timeoutMs stepIndex fuel
          (now + READY_PROBE_INTERVAL_MS) readySince2

/-- `waitForReadyState` entry point: probe from elapsed time 0 with an
empty streak map. -/
def waitForReadyState (isOpen isReady : Nat → Nat → Bool) (targets : List Nat)
    (stableMs timeoutMs stepIndex : Nat) : WaitOutcome :=
  waitForReadyLoop isOpen isReady targets stableMs timeoutMs stepIndex
    (timeoutMs / READY_PROBE_INTERVAL_MS + 2) 0 []

/-! ## Terminal state engine (`terminalStateManager.ts`) -/

/-- `BUFFER_SIZE` constant: the rolling output buffer keeps the last 220
characters. -/
def BUFFER_SIZE : Nat := 220

/-- `CLI_QUIET_TO_WAIT_MS` constant (quiet probe after output/input). -/
def CLI_QUIET_TO_WAIT_MS : Nat := 650

/-- `CLI_STARTUP_WAIT_MS` constant (quiet probe armed at execution start). -/
def CLI_STARTUP_WAIT_MS : Nat := 1500

/-- The regex-backed text classifiers of the state engine, abstracted as
functions: `sanitize` is `sanitizeTerminalData` (ANSI/OSC stripping and
CR normalisation), `matchesPrompt` is `promptRegexes.some(r =>
r.test(buffer))` over the loaded pattern list, `meaningful` is
`hasMeaningfulOutput`, and `thinking` is `indicatesThinkingSignal` (second
argument: the already-computed `meaningful` value).  The verified claims
either quantify over all classifier outcomes or hypothesise exactly what
the specification hypothesises about them. -/
structure TextHeuristics where
  sanitize : String → String
  matchesPrompt : String → Bool
  meaningful : String → Bool
  thinking : String → Bool → Bool

/-- The per-terminal `TerminalTracker` record.  Timer handles are modelled
by what schedules them: `evaluateTimer : Bool` is a pending debounced
evaluation, `quietTimer : Option (Nat × Nat)` is a scheduled quiet probe
carrying the execution version and delay captured at scheduling time. -/
structure TerminalTracker where
  state : TerminalState
  buffer : String
  pendingThinkingSignal : Bool
  executionVersion : Nat
  isInteractiveCli : Bool
  lastOutputAt : Nat
  evaluateTimer : Bool
  quietTimer : Option (Nat × Nat)
deriving DecidableEq, Repr

/-- The tracker created by `getOrCreateTracker` for a first-seen terminal. -/
def newTracker : TerminalTracker :=
  { state := TerminalState.IDLE, buffer := "", pendingThinkingSignal := false,
    executionVersion := 0, isInteractiveCli := false, lastOutputAt := 0,
    evaluateTimer := false, quietTimer := none }

/-- `setState`: a no-op when the next state equals the current one,
otherwise the state mutation plus the fired state-change event. -/
def setState (tracker : TerminalTracker) (nextState : TerminalState) :
    TerminalTracker × List TerminalState :=
  if tracker.state = nextState then (tracker, [])
  else ({ tracker with state := nextState }, [nextState])

/-- `scheduleQuietProbe`: clear any previous quiet timer and arm a new one
capturing the given execution version and delay. -/
def scheduleQuietProbe (tracker : TerminalTracker) (executionVersion delayMs : Nat) :
    TerminalTracker :=
  { tracker with quietTimer := some (executionVersion, delayMs) }

/-- `handleExecutionStart`: `interactive` is the value of
`looksLikeInteractiveCliCommand(commandLine, terminalName)` for the
starting execution, `now` the wall-clock time. -/
def handleExecutionStart (interactive : Bool) (now : Nat) (tracker : TerminalTracker) :
    TerminalTracker × List TerminalState :=
  let t := { tracker with
    executionVersion := tracker.executionVersion + 1,
    buffer := "",
    pendingThinkingSignal := false,
    isInteractiveCli := interactive,
    lastOutputAt := now,
    quietTimer := none }
  let r := setState t TerminalState.RUNNING_PROGRAM
  if interactive then
    (scheduleQuietProbe r.1 r.1.executionVersion CLI_STARTUP_WAIT_MS, r.2)
  else r

/-- `handleExecutionEnd`: authoritative reset to `IDLE`, bumping the
generation and cancelling both timers. -/
def handleExecutionEnd (tracker : TerminalTracker) : TerminalTracker × List TerminalState :=
  let t := { tracker with
    executionVersion := tracker.executionVersion + 1,
    buffer := "",
    pendingThinkingSignal := false,
    isInteractiveCli := false,
    lastOutputAt := 0,
    evaluateTimer := false,
    quietTimer := none }
  setState t TerminalState.IDLE

/-- JS `s.slice(-n)`: the last `n` characters. -/
def takeRight (s : String) (n : Nat) : String :=
  String.mk (s.toList.drop (s.toList.length - n))

/-- `handleDataChunk`: sanitize, append to the bounded rolling buffer,
update the pending-thinking signal for the current state, re-arm the quiet
probe for interactive sessions, and debounce an evaluation.  It never calls
`setState`, so it fires no state-change event. -/
def handleDataChunk (H : TextHeuristics) (chunk : String) (now : Nat)
    (tracker : TerminalTracker) : TerminalTracker :=
  let cleaned := H.sanitize chunk
  if cleaned.toList.isEmpty then tracker
  else
    let t1 := { tracker with
      lastOutputAt := now,
      buffer := takeRight (tracker.buffer ++ cleaned) BUFFER_SIZE }
    let hasMeaningful := H.meaningful cleaned
    let t2 :=
      if t1.state = TerminalState.CLI_WAITING then
        { t1 with pendingThinkingSignal :=
            t1.pendingThinkingSignal || H.thinking cleaned hasMeaningful }
      else
        { t1 with pendingThinkingSignal := t1.pendingThinkingSignal || hasMeaningful }
    let t3 :=
      if t2.isInteractiveCli then
        scheduleQuietProbe t2 t2.executionVersion CLI_QUIET_TO_WAIT_MS
      else t2
    if t3.evaluateTimer then t3 else { t3 with evaluateTimer := true }

/-- `evaluateTracker`: prompt match moves a busy state to `CLI_WAITING`;
otherwise a pending signal moves `CLI_WAITING` back to `CLI_THINKING`, or
`RUNNING_PROGRAM` (interactive only) to `CLI_THINKING`; the pending signal
is always consumed. -/
def evaluateTracker (H : TextHeuristics) (tracker : TerminalTracker) :
    TerminalTracker × List TerminalState :=
  if H.matchesPrompt tracker.buffer then
    let t := { tracker with pendingThinkingSignal := false }
    if t.state = TerminalState.RUNNING_PROGRAM ∨ t.state = TerminalState.CLI_THINKING then
      setState t TerminalState.CLI_WAITING
    else (t, [])
  else if tracker.state = TerminalState.CLI_WAITING ∧ tracker.pendingThinkingSignal then
    setState { tracker with pendingThinkingSignal := false } TerminalState.CLI_THINKING
  else if tracker.state = TerminalState.RUNNING_PROGRAM ∧ tracker.isInteractiveCli
      ∧ tracker.pendingThinkingSignal then
    setState { tracker with pendingThinkingSignal := false } TerminalState.CLI_THINKING
  else ({ tracker with pendingThinkingSignal := false }, [])

/-- Firing of the debounced evaluate timer: only a scheduled timer fires,
clearing its handle first. -/
def fireEvaluateTimer (H : TextHeuristics) (tracker : TerminalTracker) :
    TerminalTracker × List TerminalState :=
  if tracker.evaluateTimer then
    evaluateTracker H { tracker with evaluateTimer := false }
  else (tracker, [])

/-- Firing of the quiet probe scheduled by `scheduleQuietProbe`: the
callback re-checks the captured execution version, the interactive flag,
and the silence window before forcing `CLI_WAITING`. -/
def fireQuietProbe (now : Nat) (tracker : TerminalTracker) :
    TerminalTracker × List TerminalState :=
  match tracker.quietTimer with
  | none => (tracker, [])
  | some vd =>
    let t := { tracker with quietTimer := none }
    if t.executionVersion ≠ vd.1 ∨ ¬t.isInteractiveCli then (t, [])
    else if vd.2 ≤ now - t.lastOutputAt
        ∧ (t.state = TerminalState.RUNNING_PROGRAM
            ∨ t.state = TerminalState.CLI_THINKING) then
      setState t TerminalState.CLI_WAITING
    else (t, [])

/-- `notifyInputSent`: input into a `CLI_WAITING` or `RUNNING_PROGRAM`
terminal forces `CLI_THINKING` and re-arms the quiet probe. -/
def notifyInputSent (tracker : TerminalTracker) : TerminalTracker × List TerminalState :=
  if tracker.state = TerminalState.CLI_WAITING
      ∨ tracker.state = TerminalState.RUNNING_PROGRAM then
    let r := setState tracker TerminalState.CLI_THINKING
    (scheduleQuietProbe r.1 r.1.executionVersion CLI_QUIET_TO_WAIT_MS, r.2)
  else (tracker, [])

/-- The manager's tracker map (`Map<vscode.Terminal, TerminalTracker>`,
keyed here by terminal id). -/
def TrackerMap : Type := Nat → Option TerminalTracker

/-- The empty tracker map of a fresh `TerminalStateManager`. -/
def emptyTrackers : TrackerMap := fun _ => none

/-- Store a tracker under a terminal id. -/
def trackersSet (m : TrackerMap) (tid : Nat) (tr : TerminalTracker) : TrackerMap :=
  fun x => if x = tid then some tr else m x

/-- `deleteTracker` (session close). -/
def trackersDelete (m : TrackerMap) (tid : Nat) : TrackerMap :=
  fun x => if x = tid then none else m x

/-- Events observable for one terminal, tagged with the data the real
handlers receive.  `chunk` carries the execution version captured by the
`consumeExecutionStream` reader that delivers it; `evalFire` / `quietFire`
are the timer callbacks. -/
inductive TermEvent where
  | openTerm
  | closeTerm
  | execStart (interactive : Bool) (now : Nat)
  | execEnd
  | chunk (data : String) (now streamVersion : Nat)
  | evalFire
  | quietFire (now : Nat)
  | inputSent

/-- One `TerminalStateManager` step: dispatch an event for terminal `tid`
against the tracker map, returning the new map and the fired state-change
events.  Handlers reached through `getOrCreateTracker` create the tracker;
timer callbacks and the stream reader act only on an existing tracker (and
the reader only when its captured execution version still matches). -/
def managerStep (H : TextHeuristics) (m : TrackerMap) :
    Nat × TermEvent → TrackerMap × List (Nat × TerminalState)
  | (tid, TermEvent.openTerm) =>
    (match m tid with
     | some _ => m
     | none => trackersSet m tid newTracker, [])
  | (tid, TermEvent.closeTerm) => (trackersDelete m tid, [])
  | (tid, TermEvent.execStart interactive now) =>
    let r := handleExecutionStart interactive now ((m tid).getD newTracker)
    (trackersSet m tid r.1, r.2.map (fun st => (tid, st)))
  | (tid, TermEvent.execEnd) =>
    let r := handleExecutionEnd ((m tid).getD newTracker)
    (trackersSet m tid r.1, r.2.map (fun st => (tid, st)))
  | (tid, TermEvent.chunk data now streamVersion) =>
    (match m tid with
     | some tr =>
       if tr.executionVersion = streamVersion then
         (trackersSet m tid (handleDataChunk H data now tr), [])
       else (m, [])
     | none => (m, []))
  | (tid, TermEvent.evalFire) =>
    (match m tid with
     | some tr =>
       let r := fireEvaluateTimer H tr
       (trackersSet m tid r.1, r.2.map (fun st => (tid, st)))
     | none => (m, []))
  | (tid, TermEvent.quietFire now) =>
    (match m tid with
     | some tr =>
       let r := fireQuietProbe now tr
       (trackersSet m tid r.1, r.2.map (fun st => (tid, st)))
     | none => (m, []))
  | (tid, TermEvent.inputSent) =>
    let r := notifyInputSent ((m tid).getD newTracker)
    (trackersSet m tid r.1, r.2.map (fun st => (tid, st)))

/-- Run a whole event trace from the empty tracker map. -/
def runFrom (H : TextHeuristics) (m : TrackerMap) (events : List (Nat × TermEvent)) :
    TrackerMap :=
  events.foldl (fun acc e => (managerStep H acc e).1) m

/-- The manager state after a trace of events from a fresh manager. -/
def runTrace (H : TextHeuristics) (events : List (Nat × TermEvent)) : TrackerMap :=
  runFrom H emptyTrackers events

/-- `getState`: the tracker's state, defaulting to `IDLE` for a terminal
with no tracker. -/
def getState (m : TrackerMap) (tid : Nat) : TerminalState :=
  match m tid with
  | some tr => tr.state
  | none => TerminalState.IDLE

/-- `isReadyForBroadcast`. -/
def isReadyForBroadcast (m : TrackerMap) (tid : Nat) : Bool :=
  isReadyState (getState m tid)

/-- The rolling buffer visible for a terminal (empty when no tracker). -/
def bufferOf (m : TrackerMap) (tid : Nat) : String :=
  match m tid with
  | some tr => tr.buffer
  | none => ""

/-! ## Broadcast dispatcher (`broadcaster.ts`) -/

/-- `BroadcastOptions` snapshot. -/
structure BroadcastOptions where
  requireConfirmBeforeBroadcast : Bool
  enableSensitiveCommandGuard : Bool
  sensitiveKeywords : List String
  waveThreshold : Nat
  waveDelayMs : Nat
deriving DecidableEq, Repr

/-- `InteractiveBroadcastBehavior`; `waitUntilReadyMs = 0` models both an
absent field and an explicit 0 (the source clamps `?? 0` through
`Math.max(0, Math.round(·))`). -/
structure InteractiveBroadcastBehavior where
  skipBusyFilter : Bool
  waitUntilReadyMs : Nat
  allowForceAfterReadyTimeout : Bool
deriving DecidableEq, Repr

/-- `AutomatedBroadcastBehavior`. -/
structure AutomatedBroadcastBehavior where
  readyOnly : Bool
deriving DecidableEq, Repr

/-- Outcome of the modal busy-terminals dialog: the two labelled buttons, or
dismissal. -/
inductive BusyChoice where
  | sendReady
  | forceSend
  | dismissed
deriving DecidableEq, Repr

/-- Warnings `broadcast` can surface while still running to completion. -/
inductive BroadcastWarning where
  | noReadyTerminal
  | sentToReadySubset (ready total : Nat)
deriving DecidableEq, Repr

/-- Collaborator snapshot for one `broadcast` call: the state engine's
answer per terminal, the user's dialog decisions, the readiness snapshot
at the poll where `waitForReadyCandidates` returns, and display names. -/
structure BroadcastEnv where
  stateOf : Nat → TerminalState
  busyChoice : BusyChoice
  guardAccept : Bool
  confirmAccept : Bool
  readyAfterWait : Nat → Bool
  nameOf : Nat → String

/-- Result of one dispatch: the returned count, the resolved text written
per terminal in send order, and the surfaced warnings. -/
structure BroadcastOutcome where
  count : Nat
  writes : List (Nat × String)
  warnings : List BroadcastWarning
deriving DecidableEq, Repr

/-- `dedupeTerminals` / `[...new Set(terminals)]`: drop later duplicates,
keeping first-occurrence order (`seen` accumulates the ids already kept). -/
def dedupeAux (seen : List Nat) : List Nat → List Nat
  | [] => []
  | t :: rest =>
    if seen.contains t then dedupeAux seen rest
    else t :: dedupeAux (t :: seen) rest

/-- JS `[...new Set(terminals)]` (set iteration order is insertion order). -/
def dedupeTerminals (terminals : List Nat) : List Nat :=
  dedupeAux [] terminals

/-- `containsSensitiveCommand`: case-insensitive substring match of any
non-empty trimmed keyword. -/
def containsSensitiveCommand (command : String) (options : BroadcastOptions) : Bool :=
  options.sensitiveKeywords.any (fun keyword =>
    let target := jsToLower (jsTrim keyword)
    !target.toList.isEmpty && jsIncludes (jsToLower command) target)

/-- `confirmBroadcast`: the sensitive-keyword guard (when enabled and
matched) requires the explicit override, then the optional confirm-before-
send dialog requires its confirmation. -/
def confirmBroadcast (env : BroadcastEnv) (command : String) (options : BroadcastOptions) :
    Bool :=
  if options.enableSensitiveCommandGuard && containsSensitiveCommand command options
      && !env.guardAccept then
    false
  else if options.requireConfirmBeforeBroadcast then
    env.confirmAccept
  else
    true

/-- `filterBusyTerminals`: with no busy target the list passes through
without a dialog; otherwise the dialog decides between the ready subset
(warning when it is empty), all targets, or none. -/
def filterBusyTerminals (env : BroadcastEnv) (terminals : List Nat) :
    List Nat × List BroadcastWarning :=
  let ready := terminals.filter (fun t => isReadyState (env.stateOf t))
  let busy := terminals.filter (fun t => !isReadyState (env.stateOf t))
  if busy.isEmpty then (terminals, [])
  else
    match env.busyChoice with
    | BusyChoice.forceSend => (terminals, [])
    | BusyChoice.sendReady =>
      (ready, if ready.isEmpty then [BroadcastWarning.noReadyTerminal] else [])
    | BusyChoice.dismissed => ([], [])

/-- `waitForReadyCandidates`: the polling loop always returns the sublist
of candidates open and ready at its returning poll, abstracted here by the
snapshot predicate `env.readyAfterWait`. -/
def waitForReadyCandidates (env : BroadcastEnv) (terminals : List Nat) : List Nat :=
  terminals.filter env.readyAfterWait

/-- `dispatchResolvedCommands`: send the placeholder-resolved text to each
terminal in order with the 1-based position (`i + 1` in the source loop);
wave pacing delays are timing-only and do not change the writes. -/
def dispatchResolvedCommands (nameOf : Nat → String) (command : String) :
    List Nat → Nat → List (Nat × String)
  | [], _ => []
  | t :: rest, i =>
    (t, injectPlaceholders command (nameOf t) i)
      :: dispatchResolvedCommands nameOf command rest (i + 1)

/-- The candidate list of `broadcast` after the optional busy filter. -/
def broadcastCandidates (env : BroadcastEnv) (behavior : InteractiveBroadcastBehavior)
    (deduped : List Nat) : List Nat × List BroadcastWarning :=
  if behavior.skipBusyFilter then (deduped, []) else filterBusyTerminals env deduped

/-- The ready-candidate list of `broadcast` after the optional ready wait
and the optional force-fallback. -/
def broadcastReadyCandidates (env : BroadcastEnv) (behavior : InteractiveBroadcastBehavior)
    (candidates : List Nat) : List Nat :=
  let ready0 :=
    if 0 < behavior.waitUntilReadyMs then waitForReadyCandidates env candidates
    else candidates
  if behavior.allowForceAfterReadyTimeout && ready0.length < candidates.length then
    candidates
  else ready0

/-- `Broadcaster.broadcast`: trim, dedupe, busy filter, safety gates,
optional ready wait, then dispatch, returning the sent count. -/
def broadcast (env : BroadcastEnv) (terminals : List Nat) (command : String)
    (options : BroadcastOptions) (behavior : InteractiveBroadcastBehavior) :
    BroadcastOutcome :=
  let text := jsTrim command
  if text.toList.isEmpty || terminals.isEmpty then ⟨0, [], []⟩
  else
    let deduped := dedupeTerminals terminals
    let cw := broadcastCandidates env behavior deduped
    if cw.1.isEmpty then ⟨0, [], cw.2⟩
    else if !confirmBroadcast env text options then ⟨0, [], cw.2⟩
    else
      let ready := broadcastReadyCandidates env behavior cw.1
      if ready.isEmpty then ⟨0, [], cw.2 ++ [BroadcastWarning.noReadyTerminal]⟩
      else
        ⟨ready.length,
         dispatchResolvedCommands env.nameOf text ready 1,
         if ready.length < cw.1.length then
           cw.2 ++ [BroadcastWarning.sentToReadySubset ready.length cw.1.length]
         else cw.2⟩

/-- `Broadcaster.broadcastNonInteractive`: trim, dedupe, optional silent
ready-only filter, dispatch; no dialogs and no warnings. -/
def broadcastNonInteractive (env : BroadcastEnv) (terminals : List Nat) (command : String)
    (options : BroadcastOptions) (behavior : AutomatedBroadcastBehavior) :
    BroadcastOutcome :=
  let text := jsTrim command
  if text.toList.isEmpty || terminals.isEmpty then ⟨0, [], []⟩
  else
    let deduped := dedupeTerminals terminals
    let candidates :=
      if behavior.readyOnly then deduped.filter (fun t => isReadyState (env.stateOf t))
      else deduped
    if candidates.isEmpty then ⟨0, [], []⟩
    else ⟨candidates.length, dispatchResolvedCommands env.nameOf text candidates 1, []⟩

/-! ## Automation orchestrator (`TaskAutomationManager`) -/

/-- `PollingStatus` record. -/
structure PollingStatus where
  active : Bool
  command : String
  intervalMs : Nat
  targetCount : Nat
  lastRunAt : Option Nat
  lastSentCount : Nat
  error : String
deriving DecidableEq, Repr

/-- `ChainStatus` record. -/
structure ChainStatus where
  active : Bool
  currentStep : Nat
  totalSteps : Nat
  targetCount : Nat
  detail : String
  error : String
deriving DecidableEq, Repr

/-- `AutomationStatus` record pushed to observers. -/
structure AutomationStatus where
  polling : PollingStatus
  chain : ChainStatus
deriving DecidableEq, Repr

/-- The manager's mutable fields: both run ids, the tick re-entrancy flag,
whether the interval timer is installed, and the status record. -/
structure AutomationState where
  pollingRunId : Nat
  chainRunId : Nat
  pollingBusy : Bool
  pollingTimer : Bool
  status : AutomationStatus
deriving DecidableEq, Repr

/-- The initial status of a fresh `TaskAutomationManager`. -/
def initialAutomationStatus : AutomationStatus :=
  { polling := { active := false, command := "", intervalMs := 5000, targetCount := 0,
                 lastRunAt := none, lastSentCount := 0, error := "" },
    chain := { active := false, currentStep := 0, totalSteps := 0, targetCount := 0,
               detail := "", error := "" } }

/-- A fresh `TaskAutomationManager`. -/
def initialAutomationState : AutomationState :=
  { pollingRunId := 0, chainRunId := 0, pollingBusy := false, pollingTimer := false,
    status := initialAutomationStatus }

/-- `isPollingRunActive`: the run's effects are valid only while the active
flag is set and its captured run id still matches the manager's. -/
def isPollingRunActive (s : AutomationState) (runId : Nat) : Bool :=
  s.status.polling.active && runId == s.pollingRunId

/-- `isChainRunActive`. -/
def isChainRunActive (s : AutomationState) (runId : Nat) : Bool :=
  s.status.chain.active && runId == s.chainRunId

/-- `stopPollingTimerOnly`: clear the interval timer. -/
def stopPollingTimerOnly (s : AutomationState) : AutomationState :=
  { s with pollingTimer := false }

/-- `stopPolling`: clear the timer, bump the polling run id, clear the busy
flag and the active flag. -/
def stopPolling (s : AutomationState) : AutomationState :=
  let s1 := stopPollingTimerOnly s
  { s1 with
    pollingRunId := s1.pollingRunId + 1,
    pollingBusy := false,
    status := { s1.status with polling := { s1.status.polling with active := false } } }

/-- `stopChain`: bump the chain run id and clear the active flag, keeping
the detail text when an error is recorded. -/
def stopChain (s : AutomationState) : AutomationState :=
  { s with
    chainRunId := s.chainRunId + 1,
    status := { s.status with chain := { s.status.chain with
      active := false,
      detail := if s.status.chain.error != "" then s.status.chain.detail else "Stopped" } } }

/-- `startPolling`: validation errors throw before any state change; a
valid start stops the previous run, claims the next run id, installs the
timer and publishes the fresh polling status. -/
def startPolling (s : AutomationState) (terminals : List Nat) (command : String)
    (intervalMs : Nat) : AutomationState :=
  let text := jsTrim command
  if text.toList.isEmpty then s
  else if (dedupeTerminals terminals).isEmpty then s
  else
    let s1 := stopPolling s
    { s1 with
      pollingRunId := s1.pollingRunId + 1,
      pollingTimer := true,
      status := { s1.status with polling := {
        active := true, command := text, intervalMs := max 500 intervalMs,
        targetCount := (dedupeTerminals terminals).length,
        lastRunAt := none, lastSentCount := 0, error := "" } } }

/-- `startChain`: parse errors and validation errors throw before any state
change; a valid start stops the previous chain, claims the next run id and
publishes the fresh chain status. -/
def startChain (s : AutomationState) (terminals : List Nat) (script : String) :
    AutomationState :=
  match parseChainScript script with
  | Except.error _ => s
  | Except.ok steps =>
    if steps.isEmpty then s
    else if (dedupeTerminals terminals).isEmpty then s
    else
      let s1 := stopChain s
      { s1 with
        chainRunId := s1.chainRunId + 1,
        status := { s1.status with chain := {
          active := true, currentStep := 0, totalSteps := steps.length,
          targetCount := (dedupeTerminals terminals).length,
          detail := "Running", error := "" } } }

/-- Synchronous entry of a polling tick, up to the `await` of the
non-interactive broadcast: the guard and busy re-check, then either the
all-targets-closed failure (thrown and caught inside the same synchronous
block, so the catch guard passes) or the suspension with the busy flag
held. -/
def tickEntry (s : AutomationState) (runId openCount : Nat) : AutomationState :=
  if !isPollingRunActive s runId || s.pollingBusy then s
  else
    let s1 := { s with pollingBusy := true }
    if openCount = 0 then
      let s2 := { s1 with status := { s1.status with polling := { s1.status.polling with
        active := false, error := "All polling targets are closed." } } }
      { stopPollingTimerOnly s2 with pollingBusy := false }
    else s1

/-- Resumption of a tick after its broadcast resolves (`sentCount` sent to
`openCount` still-open targets at wall time `now`): the guard is re-checked
first; only the `finally` (busy-flag clear) runs on a stale run. -/
def tickAfterBroadcast (s : AutomationState) (runId openCount sentCount now : Nat) :
    AutomationState :=
  if !isPollingRunActive s runId then { s with pollingBusy := false }
  else
    { s with
      pollingBusy := false,
      status := { s.status with polling := { s.status.polling with
        targetCount := openCount, lastRunAt := some now,
        lastSentCount := sentCount, error := "" } } }

/-- Resumption of a tick whose broadcast rejected: the catch re-checks the
guard before recording the failure and stopping the timer. -/
def tickBroadcastFailed (s : AutomationState) (runId : Nat) (message : String) :
    AutomationState :=
  if !isPollingRunActive s runId then { s with pollingBusy := false }
  else
    let s1 := { s with status := { s.status with polling := { s.status.polling with
      active := false, error := message } } }
    { stopPollingTimerOnly s1 with pollingBusy := false }

/-- The catch block of `executeChain`: re-check the guard, then record the
failure. -/
def chainCatch (s : AutomationState) (runId : Nat) (message : String) : AutomationState :=
  if !isChainRunActive s runId then s
  else
    { s with status := { s.status with chain := { s.status.chain with
      active := false, error := message, detail := "Failed" } } }

/-- Head of one `executeChain` loop iteration (a resumption point after the
previous step's `await`): guard re-check, progress status write, then the
all-targets-closed throw handled by `chainCatch` in the same synchronous
block. -/
def chainIterStart (s : AutomationState) (runId stepIndex openCount : Nat)
    (detail : String) : AutomationState :=
  if !isChainRunActive s runId then s
  else
    let s1 := { s with status := { s.status with chain := { s.status.chain with
      currentStep := stepIndex + 1, detail := detail } } }
    if openCount = 0 then chainCatch s1 runId "All chain targets are closed."
    else s1

/-- Resumption of a command step after its broadcast resolves: a zero send
throws, reaching `chainCatch`; otherwise the loop continues without a
status write. -/
def chainCommandResume (s : AutomationState) (runId stepIndex sentCount : Nat) :
    AutomationState :=
  if sentCount = 0 then
    chainCatch s runId ("Step " ++ toString (stepIndex + 1) ++ " sent nothing.")
  else s

/-- Resumption inside a delay or wait-ready slice (`waitWithCancel` /
`waitForReadyState`): a stale run throws "Chain stopped." which funnels to
`chainCatch`; a live, unfinished run just re-suspends, writing nothing.
A wait-ready timeout on a live run throws the timeout error, again through
`chainCatch`. -/
def chainSliceResume (s : AutomationState) (runId : Nat) (timedOut : Bool)
    (timeoutMessage : String) : AutomationState :=
  if !isChainRunActive s runId then chainCatch s runId "Chain stopped."
  else if timedOut then chainCatch s runId timeoutMessage
  else s

/-- The completion block after the last chain step: guard re-check, then
the Completed status write. -/
def chainComplete (s : AutomationState) (runId : Nat) : AutomationState :=
  if !isChainRunActive s runId then s
  else
    { s with status := { s.status with chain := { s.status.chain with
      active := false, detail := "Completed" } } }

/-- Everything that can touch the `TaskAutomationManager` between two
points in time: the public API calls and every resumption segment of any
tick or chain step (of any run id). -/
inductive AutoOp where
  | startPollingOp (terminals : List Nat) (command : String) (intervalMs : Nat)
  | stopPollingOp
  | startChainOp (terminals : List Nat) (script : String)
  | stopChainOp
  | tickEntryOp (runId openCount : Nat)
  | tickAfterBroadcastOp (runId openCount sentCount now : Nat)
  | tickBroadcastFailedOp (runId : Nat) (message : String)
  | chainIterStartOp (runId stepIndex openCount : Nat) (detail : String)
  | chainCommandResumeOp (runId stepIndex sentCount : Nat)
  | chainSliceResumeOp (runId : Nat) (timedOut : Bool) (timeoutMessage : String)
  | chainCompleteOp (runId : Nat)
  | chainCatchOp (runId : Nat) (message : String)

/-- Apply one operation. -/
def applyOp (s : AutomationState) : AutoOp → AutomationState
  | AutoOp.startPollingOp terminals command intervalMs =>
    startPolling s terminals command intervalMs
  | AutoOp.stopPollingOp => stopPolling s
  | AutoOp.startChainOp terminals script => startChain s terminals script
  | AutoOp.stopChainOp => stopChain s
  | AutoOp.tickEntryOp runId openCount => tickEntry s runId openCount
  | AutoOp.tickAfterBroadcastOp runId openCount sentCount now =>
    tickAfterBroadcast s runId openCount sentCount now
  | AutoOp.tickBroadcastFailedOp runId message => tickBroadcastFailed s runId message
  | AutoOp.chainIterStartOp runId stepIndex openCount detail =>
    chainIterStart s runId stepIndex openCount detail
  | AutoOp.chainCommandResumeOp runId stepIndex sentCount =>
    chainCommandResume s runId stepIndex sentCount
  | AutoOp.chainSliceResumeOp runId timedOut timeoutMessage =>
    chainSliceResume s runId timedOut timeoutMessage
  | AutoOp.chainCompleteOp runId => chainComplete s runId
  | AutoOp.chainCatchOp runId message => chainCatch s runId message

/-- Apply a sequence of operations. -/
def applyTrace (s : AutomationState) (ops : List AutoOp) : AutomationState :=
  ops.foldl applyOp s

/-- The operations that are resumption segments of the polling run with id
`runId`. -/
def isPollingSegmentOf (runId : Nat) : AutoOp → Prop
  | AutoOp.tickEntryOp r _ => r = runId
  | AutoOp.tickAfterBroadcastOp r _ _ _ => r = runId
  | AutoOp.tickBroadcastFailedOp r _ => r = runId
  | _ => False

/-- The operations that are resumption segments of the chain run with id
`runId`. -/
def isChainSegmentOf (runId : Nat) : AutoOp → Prop
  | AutoOp.chainIterStartOp r _ _ _ => r = runId
  | AutoOp.chainCommandResumeOp r _ _ => r = runId
  | AutoOp.chainSliceResumeOp r _ _ => r = runId
  | AutoOp.chainCompleteOp r => r = runId
  | AutoOp.chainCatchOp r _ => r = runId
  | _ => False

/-! ## Prompt pattern loading (`reloadPromptRegexes` and helpers) -/

/-- `DEFAULT_CLI_PROMPT_PATTERNS`: the built-in fallback pattern list. -/
def DEFAULT_CLI_PROMPT_PATTERNS : List String :=
  ["(?:^|\\n)\\s*(?:codex|claude(?:\\s+code)?|qwen|gemini)?\\s*(?:>|❯|›|»|\\$)\\s*$",
   "(?:^|\\n)\\s*(?:You|Input)\\s*:\\s*$",
   "(?:^|\\n)[^\\n]\x7b0,80\x7d(?:❯|›|»)\\s*$"]

/-- Flag dedupe loop of `normalizeRegexFlags`: skip `g`/`y` and flags
already kept, preserving first-occurrence order. -/
def normalizeFlagsAux : List Char → List Char → List Char
  | [], acc => acc.reverse
  | c :: rest, acc =>
    if c == 'g' || c == 'y' || acc.contains c then normalizeFlagsAux rest acc
    else normalizeFlagsAux rest (c :: acc)

/-- `normalizeRegexFlags`: append `m` to the raw flags and dedupe. -/
def normalizeRegexFlags (rawFlags : String) : String :=
  String.mk (normalizeFlagsAux (rawFlags.toList ++ ['m']) [])

/-- Regex `/^\/(.*)\/([a-z]*)$/i` on the trimmed pattern.  `[a-z]*` under
`i` is the maximal trailing ASCII-letter run; backtracking makes `.*` stop
at the last slash, whose suffix must be that run; `.` does not match a
newline, so a body containing one fails the match. -/
def splitSlashForm (raw : String) : Option (String × String) :=
  match raw.toList with
  | '/' :: rest =>
    (match rest.reverse.dropWhile Char.isAlpha with
     | '/' :: bodyRev =>
       if bodyRev.contains '\n' then none
       else some (String.mk bodyRev.reverse,
                  String.mk ((rest.reverse.takeWhile Char.isAlpha).reverse))
     | _ => none)
  | _ => none

/-- `compilePromptRegex`: trim; empty patterns are dropped; a `/body/flags`
literal compiles its body under normalized flags, anything else compiles
verbatim under the `m` flag; a compile failure is dropped.  `valid source
flags` is the external host regex engine's acceptance, a parameter the
theorems quantify over. -/
def compilePromptRegex (valid : String → String → Bool) (pattern : String) :
    Option (String × String) :=
  let raw := jsTrim pattern
  if raw.toList.isEmpty then none
  else
    match splitSlashForm raw with
    | some sf =>
      if valid sf.1 (normalizeRegexFlags sf.2) then some (sf.1, normalizeRegexFlags sf.2)
      else none
    | none => if valid raw "m" then some (raw, "m") else none

/-- `compilePromptRegexes`: keep the successfully compiled patterns in
order. -/
def compilePromptRegexes (valid : String → String → Bool) (patterns : List String) :
    List (String × String) :=
  patterns.filterMap (compilePromptRegex valid)

/-- `reloadPromptRegexes` after the configuration read: `configured` is the
configured pattern list (already filtered to strings, `[]` for a non-array
value); when nothing in it compiles, the full built-in default list is
compiled instead. -/
def reloadPromptRegexes (valid : String → String → Bool) (configured : List String) :
    List (String × String) :=
  let compiled := compilePromptRegexes valid configured
  if 0 < compiled.length then compiled
  else compilePromptRegexes valid DEFAULT_CLI_PROMPT_PATTERNS

/-- Heuristics fixture for concrete instantiations: prompt patterns that
match nothing, trivial sanitising, every chunk meaningful. -/
def noMatchHeuristics : TextHeuristics :=
  { sanitize := fun s => s, matchesPrompt := fun _ => false,
    meaningful := fun _ => true, thinking := fun _ b => b }

/-- Heuristics fixture for concrete instantiations: prompt patterns that
match every buffer. -/
def alwaysPromptHeuristics : TextHeuristics :=
  { sanitize := fun s => s, matchesPrompt := fun _ => true,
    meaningful := fun _ => true, thinking := fun _ b => b }

/-- Tracker fixture: a busy (`RUNNING_PROGRAM`) tracker holding a prompt
glyph in its buffer. -/
def sampleBusyTracker : TerminalTracker :=
  { newTracker with state := TerminalState.RUNNING_PROGRAM, buffer := "> " }

/-! ## Helper lemmas -/

theorem setState_fst_state (tr : TerminalTracker) (st : TerminalState) :
    (setState tr st).1.state = st := by
  simp only [setState]
  split
  · rename_i h; exact h
  · rfl

theorem setState_fst_interactive (tr : TerminalTracker) (st : TerminalState) :
    (setState tr st).1.isInteractiveCli = tr.isInteractiveCli := by
  simp only [setState]
  split <;> rfl

theorem setState_self (tr : TerminalTracker) : setState tr tr.state = (tr, []) := by
  simp [setState]

theorem handleExecutionStart_false (now : Nat) (tr : TerminalTracker) :
    (handleExecutionStart false now tr).1.state = TerminalState.RUNNING_PROGRAM ∧
    (handleExecutionStart false now tr).1.isInteractiveCli = false := by
  constructor
  · simp [handleExecutionStart, setState_fst_state]
  · simp [handleExecutionStart, setState_fst_interactive]

theorem handleExecutionEnd_spec (tr : TerminalTracker) :
    (handleExecutionEnd tr).1.state = TerminalState.IDLE ∧
    (handleExecutionEnd tr).1.isInteractiveCli = false := by
  constructor
  · simp [handleExecutionEnd, setState_fst_state]
  · simp [handleExecutionEnd, setState_fst_interactive]

theorem handleDataChunk_preserves (H : TextHeuristics) (chunk : String) (now : Nat)
    (tr : TerminalTracker) :
    (handleDataChunk H chunk now tr).state = tr.state ∧
    (handleDataChunk H chunk now tr).isInteractiveCli = tr.isInteractiveCli := by
  simp only [handleDataChunk, scheduleQuietProbe]
  split_ifs <;> exact ⟨rfl, rfl⟩

theorem evaluateTracker_no_match (H : TextHeuristics) (tr : TerminalTracker)
    (hb : H.matchesPrompt tr.buffer = false)
    (hs : tr.state ≠ TerminalState.CLI_WAITING)
    (hi : tr.isInteractiveCli = false) :
    (evaluateTracker H tr).1.state = tr.state ∧
    (evaluateTracker H tr).1.isInteractiveCli = false := by
  have h2 : ¬(tr.state = TerminalState.CLI_WAITING ∧ tr.pendingThinkingSignal = true) :=
    fun hc => hs hc.1
  have h3 : ¬(tr.state = TerminalState.RUNNING_PROGRAM ∧ tr.isInteractiveCli = true
      ∧ tr.pendingThinkingSignal = true) := fun hc => by
    rw [hi] at hc
    exact Bool.false_ne_true hc.2.1
  simp [evaluateTracker, hb, h2, h3, hi]

theorem fireEvaluateTimer_no_match (H : TextHeuristics) (tr : TerminalTracker)
    (hb : H.matchesPrompt tr.buffer = false)
    (hs : tr.state ≠ TerminalState.CLI_WAITING)
    (hi : tr.isInteractiveCli = false) :
    (fireEvaluateTimer H tr).1.state = tr.state ∧
    (fireEvaluateTimer H tr).1.isInteractiveCli = false := by
  simp only [fireEvaluateTimer]
  split
  · exact evaluateTracker_no_match H { tr with evaluateTimer := false } hb hs hi
  · exact ⟨rfl, hi⟩

theorem fireQuietProbe_not_interactive (now : Nat) (tr : TerminalTracker)
    (hi : tr.isInteractiveCli = false) :
    (fireQuietProbe now tr).1.state = tr.state ∧
    (fireQuietProbe now tr).1.isInteractiveCli = false := by
  simp only [fireQuietProbe]
  cases hq : tr.quietTimer with
  | none => exact ⟨rfl, hi⟩
  | some vd => simp [hi]

theorem notifyInputSent_spec (tr : TerminalTracker) :
    ((notifyInputSent tr).1.state = tr.state
      ∨ (notifyInputSent tr).1.state = TerminalState.CLI_THINKING) ∧
    (notifyInputSent tr).1.isInteractiveCli = tr.isInteractiveCli := by
  simp only [notifyInputSent, scheduleQuietProbe]
  split
  · exact ⟨Or.inr (setState_fst_state tr TerminalState.CLI_THINKING),
      setState_fst_interactive tr TerminalState.CLI_THINKING⟩
  · exact ⟨Or.inl rfl, rfl⟩

theorem trackersSet_ne (m : TrackerMap) (tid t : Nat) (tr : TerminalTracker)
    (h : t ≠ tid) : trackersSet m tid tr t = m t := by
  simp [trackersSet, h]

theorem trackersSet_self (m : TrackerMap) (tid : Nat) (tr : TerminalTracker) :
    trackersSet m tid tr tid = some tr := by
  simp [trackersSet]

theorem trackersDelete_ne (m : TrackerMap) (tid t : Nat) (h : t ≠ tid) :
    trackersDelete m tid t = m t := by
  simp [trackersDelete, h]

theorem managerStep_preserves_other (H : TextHeuristics) (m : TrackerMap)
    (tid : Nat) (ev : TermEvent) (t : Nat) (h : t ≠ tid) :
    (managerStep H m (tid, ev)).1 t = m t := by
  cases ev with
  | openTerm =>
    simp only [managerStep]
    cases hm : m tid with
    | some tr => rfl
    | none => exact trackersSet_ne m tid t newTracker h
  | closeTerm => exact trackersDelete_ne m tid t h
  | execStart intr now => exact trackersSet_ne m tid t _ h
  | execEnd => exact trackersSet_ne m tid t _ h
  | chunk data now ver =>
    simp only [managerStep]
    cases hm : m tid with
    | some tr =>
      by_cases hv : tr.executionVersion = ver
      · simp only [if_pos hv]
        exact trackersSet_ne m tid t _ h
      · simp only [if_neg hv]
    | none => rfl
  | evalFire =>
    simp only [managerStep]
    cases hm : m tid with
    | some tr => exact trackersSet_ne m tid t _ h
    | none => rfl
  | quietFire now =>
    simp only [managerStep]
    cases hm : m tid with
    | some tr => exact trackersSet_ne m tid t _ h
    | none => rfl
  | inputSent => exact trackersSet_ne m tid t _ h

theorem runFrom_unobserved (H : TextHeuristics) :
    ∀ (trace : List (Nat × TermEvent)) (m : TrackerMap) (t : Nat),
      (∀ e ∈ trace, e.1 ≠ t) → runFrom H m trace t = m t := by
  intro trace
  induction trace with
  | nil => intro m t _; rfl
  | cons e rest ih =>
    intro m t h
    have h1 : t ≠ e.1 := Ne.symm (h e (List.mem_cons_self e rest))
    have h2 := ih (managerStep H m e).1 t (fun x hx => h x (List.mem_cons_of_mem e hx))
    calc runFrom H m (e :: rest) t = (managerStep H m e).1 t := h2
      _ = m t := by
          obtain ⟨tid, ev⟩ := e
          exact managerStep_preserves_other H m tid ev t h1

theorem managerStep_not_waiting (H : TextHeuristics) (t : Nat) (m : TrackerMap)
    (ev : TermEvent)
    (hm : ∀ tr, m t = some tr →
      tr.state ≠ TerminalState.CLI_WAITING ∧ tr.isInteractiveCli = false)
    (hcls : ∀ intr now, ev = TermEvent.execStart intr now → intr = false)
    (hbuf : H.matchesPrompt (bufferOf m t) = false) :
    ∀ tr, (managerStep H m (t, ev)).1 t = some tr →
      tr.state ≠ TerminalState.CLI_WAITING ∧ tr.isInteractiveCli = false := by
  cases ev with
  | openTerm =>
    intro tr htr
    cases hq : m t with
    | some tr0 =>
      simp only [managerStep, hq, Option.some.injEq] at htr
      subst htr
      exact hm tr0 hq
    | none =>
      simp only [managerStep, hq, trackersSet_self, Option.some.injEq] at htr
      subst htr
      exact ⟨by decide, by decide⟩
  | closeTerm =>
    intro tr htr
    simp [managerStep, trackersDelete] at htr
  | execStart intr now =>
    have hf : intr = false := hcls intr now rfl
    subst hf
    intro tr htr
    simp only [managerStep, trackersSet_self, Option.some.injEq] at htr
    subst htr
    have hspec := handleExecutionStart_false now ((m t).getD newTracker)
    exact ⟨by rw [hspec.1]; decide, hspec.2⟩
  | execEnd =>
    intro tr htr
    simp only [managerStep, trackersSet_self, Option.some.injEq] at htr
    subst htr
    have hspec := handleExecutionEnd_spec ((m t).getD newTracker)
    exact ⟨by rw [hspec.1]; decide, hspec.2⟩
  | chunk data now ver =>
    intro tr htr
    cases hq : m t with
    | some tr0 =>
      simp only [managerStep, hq] at htr
      by_cases hv : tr0.executionVersion = ver
      · simp only [if_pos hv, trackersSet_self, Option.some.injEq] at htr
        subst htr
        have hspec := handleDataChunk_preserves H data now tr0
        have h0 := hm tr0 hq
        exact ⟨by rw [hspec.1]; exact h0.1, by rw [hspec.2]; exact h0.2⟩
      · simp only [if_neg hv, hq, Option.some.injEq] at htr
        subst htr
        exact hm tr0 hq
    | none =>
      simp only [managerStep, hq] at htr
      exact Option.noConfusion htr
  | evalFire =>
    intro tr htr
    cases hq : m t with
    | some tr0 =>
      simp only [managerStep, hq, trackersSet_self, Option.some.injEq] at htr
      subst htr
      have h0 := hm tr0 hq
      have hb0 : H.matchesPrompt tr0.buffer = false := by
        simpa [bufferOf, hq] using hbuf
      have hspec := fireEvaluateTimer_no_match H tr0 hb0 h0.1 h0.2
      exact ⟨by rw [hspec.1]; exact h0.1, hspec.2⟩
    | none =>
      simp only [managerStep, hq] at htr
      exact Option.noConfusion htr
  | quietFire now =>
    intro tr htr
    cases hq : m t with
    | some tr0 =>
      simp only [managerStep, hq, trackersSet_self, Option.some.injEq] at htr
      subst htr
      have h0 := hm tr0 hq
      have hspec := fireQuietProbe_not_interactive now tr0 h0.2
      exact ⟨by rw [hspec.1]; exact h0.1, hspec.2⟩
    | none =>
      simp only [managerStep, hq] at htr
      exact Option.noConfusion htr
  | inputSent =>
    intro tr htr
    simp only [managerStep, trackersSet_self, Option.some.injEq] at htr
    subst htr
    cases hq : m t with
    | some tr0 =>
      simp only [Option.getD_some]
      have h0 := hm tr0 hq
      have hspec := notifyInputSent_spec tr0
      refine ⟨?_, by rw [hspec.2]; exact h0.2⟩
      rcases hspec.1 with hst | hst
      · rw [hst]; exact h0.1
      · rw [hst]; decide
    | none =>
      simp only [Option.getD_none]
      have hspec := notifyInputSent_spec newTracker
      refine ⟨?_, by rw [hspec.2]; rfl⟩
      rcases hspec.1 with hst | hst
      · rw [hst]; decide
      · rw [hst]; decide

theorem runFrom_not_waiting (H : TextHeuristics) (t : Nat) :
    ∀ (trace : List (Nat × TermEvent)) (m : TrackerMap),
      (∀ tr, m t = some tr →
        tr.state ≠ TerminalState.CLI_WAITING ∧ tr.isInteractiveCli = false) →
      (∀ intr now, (t, TermEvent.execStart intr now) ∈ trace → intr = false) →
      (∀ pre suf, pre ++ suf = trace →
        H.matchesPrompt (bufferOf (runFrom H m pre) t) = false) →
      ∀ tr, runFrom H m trace t = some tr →
        tr.state ≠ TerminalState.CLI_WAITING ∧ tr.isInteractiveCli = false := by
  intro trace
  induction trace with
  | nil => intro m hm _ _ tr htr; exact hm tr htr
  | cons e rest ih =>
    intro m hm hcls hbuf
    obtain ⟨tid, ev⟩ := e
    by_cases ht : tid = t
    · subst ht
      refine ih (managerStep H m (tid, ev)).1 ?_ ?_ ?_
      · exact managerStep_not_waiting H tid m ev hm
          (fun intr now he => hcls intr now (by rw [he]; exact List.mem_cons_self _ _))
          (hbuf [] ((tid, ev) :: rest) rfl)
      · intro intr now hmem; exact hcls intr now (List.mem_cons_of_mem _ hmem)
      · intro pre suf hps
        exact hbuf ((tid, ev) :: pre) suf (by simp [hps])
    · refine ih (managerStep H m (tid, ev)).1 ?_ ?_ ?_
      · intro tr htr
        rw [managerStep_preserves_other H m tid ev t (fun he => ht he.symm)] at htr
        exact hm tr htr
      · intro intr now hmem; exact hcls intr now (List.mem_cons_of_mem _ hmem)
      · intro pre suf hps
        exact hbuf ((tid, ev) :: pre) suf (by simp [hps])

theorem not_mem_dedupeAux_of_seen {x : Nat} :
    ∀ (l seen : List Nat), x ∈ seen → x ∉ dedupeAux seen l := by
  intro l
  induction l with
  | nil => intro seen _ hmem; simp [dedupeAux] at hmem
  | cons t rest ih =>
    intro seen h
    simp only [dedupeAux]
    split
    · exact ih seen h
    · rename_i hts
      intro hmem
      rcases List.mem_cons.mp hmem with hx | hx
      · subst hx; exact hts (by simpa using h)
      · exact ih (t :: seen) (List.mem_cons_of_mem t h) hx

theorem dedupeAux_nodup : ∀ (l seen : List Nat), (dedupeAux seen l).Nodup := by
  intro l
  induction l with
  | nil => intro seen; simp [dedupeAux]
  | cons t rest ih =>
    intro seen
    simp only [dedupeAux]
    split
    · exact ih seen
    · exact List.nodup_cons.mpr
        ⟨not_mem_dedupeAux_of_seen rest (t :: seen) (List.mem_cons_self t seen),
         ih (t :: seen)⟩

theorem dedupeAux_eq_self :
    ∀ (l seen : List Nat), l.Nodup → (∀ x ∈ l, x ∉ seen) →
      dedupeAux seen l = l := by
  intro l
  induction l with
  | nil => intro seen _ _; rfl
  | cons t rest ih =>
    intro seen hnd hns
    simp only [dedupeAux]
    rw [if_neg (by simpa using hns t (List.mem_cons_self t rest))]
    refine congrArg (t :: ·) (ih (t :: seen) (List.nodup_cons.mp hnd).2 ?_)
    intro x hx hmem
    rcases List.mem_cons.mp hmem with hx2 | hx2
    · exact (List.nodup_cons.mp hnd).1 (hx2 ▸ hx)
    · exact hns x (List.mem_cons_of_mem t hx) hx2

theorem dedupeTerminals_nodup (l : List Nat) : (dedupeTerminals l).Nodup :=
  dedupeAux_nodup l []

theorem dedupeTerminals_idem (l : List Nat) :
    dedupeTerminals (dedupeTerminals l) = dedupeTerminals l :=
  dedupeAux_eq_self (dedupeTerminals l) [] (dedupeTerminals_nodup l)
    (fun x _ => List.not_mem_nil x)

theorem dedupeTerminals_isEmpty (l : List Nat) :
    (dedupeTerminals l).isEmpty = l.isEmpty := by
  cases l with
  | nil => rfl
  | cons t rest => simp [dedupeTerminals, dedupeAux]

theorem dispatchResolvedCommands_length (nameOf : Nat → String) (command : String) :
    ∀ (l : List Nat) (i : Nat), (dispatchResolvedCommands nameOf command l i).length = l.length := by
  intro l
  induction l with
  | nil => intro i; rfl
  | cons t rest ih => intro i; simp [dispatchResolvedCommands, ih]

theorem dispatchResolvedCommands_map_fst (nameOf : Nat → String) (command : String) :
    ∀ (l : List Nat) (i : Nat),
      (dispatchResolvedCommands nameOf command l i).map Prod.fst = l := by
  intro l
  induction l with
  | nil => intro i; rfl
  | cons t rest ih => intro i; simp [dispatchResolvedCommands, ih]

theorem filterBusyTerminals_nodup (env : BroadcastEnv) (terminals : List Nat)
    (h : terminals.Nodup) : (filterBusyTerminals env terminals).1.Nodup := by
  simp only [filterBusyTerminals]
  split
  · exact h
  · cases env.busyChoice with
    | sendReady => exact List.Nodup.filter _ h
    | forceSend => exact h
    | dismissed => exact List.nodup_nil

theorem broadcastCandidates_nodup (env : BroadcastEnv)
    (behavior : InteractiveBroadcastBehavior) (d : List Nat) (h : d.Nodup) :
    (broadcastCandidates env behavior d).1.Nodup := by
  simp only [broadcastCandidates]
  split
  · exact h
  · exact filterBusyTerminals_nodup env d h

theorem broadcastReadyCandidates_nodup (env : BroadcastEnv)
    (behavior : InteractiveBroadcastBehavior) (c : List Nat) (h : c.Nodup) :
    (broadcastReadyCandidates env behavior c).Nodup := by
  simp only [broadcastReadyCandidates, waitForReadyCandidates]
  split <;> split
  all_goals first
  | exact h
  | exact List.Nodup.filter _ h

theorem applyOp_runIds_mono (s : AutomationState) (op : AutoOp) :
    s.pollingRunId ≤ (applyOp s op).pollingRunId ∧
    s.chainRunId ≤ (applyOp s op).chainRunId := by
  cases op <;>
    simp only [applyOp, startPolling, startChain, stopPolling, stopChain,
      stopPollingTimerOnly, tickEntry, tickAfterBroadcast, tickBroadcastFailed,
      chainIterStart, chainCommandResume, chainSliceResume, chainComplete,
      chainCatch] <;>
    repeat' split
  all_goals exact ⟨by simp <;> omega, by simp <;> omega⟩

theorem applyTrace_runIds_mono (ops : List AutoOp) :
    ∀ s : AutomationState,
      s.pollingRunId ≤ (applyTrace s ops).pollingRunId ∧
      s.chainRunId ≤ (applyTrace s ops).chainRunId := by
  induction ops with
  | nil => intro s; exact ⟨Nat.le_refl _, Nat.le_refl _⟩
  | cons op rest ih =>
    intro s
    have h1 := applyOp_runIds_mono s op
    have h2 := ih (applyOp s op)
    exact ⟨Nat.le_trans h1.1 h2.1, Nat.le_trans h1.2 h2.2⟩

theorem isPollingRunActive_stale {s : AutomationState} {runId : Nat}
    (h : runId ≠ s.pollingRunId) : isPollingRunActive s runId = false := by
  unfold isPollingRunActive
  rw [beq_eq_false_iff_ne.mpr h]
  exact Bool.and_false _

theorem isChainRunActive_stale {s : AutomationState} {runId : Nat}
    (h : runId ≠ s.chainRunId) : isChainRunActive s runId = false := by
  unfold isChainRunActive
  rw [beq_eq_false_iff_ne.mpr h]
  exact Bool.and_false _

theorem pollingSegment_stale_status (s : AutomationState) (op : AutoOp) (runId : Nat)
    (hseg : isPollingSegmentOf runId op) (h : runId ≠ s.pollingRunId) :
    (applyOp s op).status = s.status := by
  have ha := isPollingRunActive_stale (s := s) h
  cases op <;> simp only [isPollingSegmentOf] at hseg <;>
    first
    | exact hseg.elim
    | (cases hseg
       simp [applyOp, tickEntry, tickAfterBroadcast, tickBroadcastFailed, ha])

theorem chainSegment_stale_status (s : AutomationState) (op : AutoOp) (runId : Nat)
    (hseg : isChainSegmentOf runId op) (h : runId ≠ s.chainRunId) :
    (applyOp s op).status = s.status := by
  have ha := isChainRunActive_stale (s := s) h
  cases op <;> simp only [isChainSegmentOf] at hseg <;>
    first
    | exact hseg.elim
    | (cases hseg
       simp [applyOp, chainIterStart, chainCommandResume, chainSliceResume,
         chainComplete, chainCatch, ha])

/-! ## Claim theorems -/

/-- C1: stopping a run invalidates it permanently.  After `stopPolling`
(resp. `stopChain`) — each of which bumps the corresponding run id and
clears the active flag — no matter how the manager is driven afterwards
(any sequence of start/stop calls and in-flight tick or chain segments of
any runs), every resumption segment belonging to a run id captured at or
before the stop observes the run-id/active-flag mismatch at its guard and
leaves the automation status record untouched. -/
theorem C1_stop_invalidates_run (s : AutomationState) (ops : List AutoOp) (op : AutoOp)
    (ridP ridC : Nat) (hP : ridP ≤ s.pollingRunId) (hC : ridC ≤ s.chainRunId) :
    (isPollingSegmentOf ridP op →
      (applyOp (applyTrace (stopPolling s) ops) op).status
        = (applyTrace (stopPolling s) ops).status) ∧
    (isChainSegmentOf ridC op →
      (applyOp (applyTrace (stopChain s) ops) op).status
        = (applyTrace (stopChain s) ops).status) := by
  constructor
  · intro hseg
    have h1 : (stopPolling s).pollingRunId = s.pollingRunId + 1 := rfl
    have h2 := (applyTrace_runIds_mono ops (stopPolling s)).1
    rw [h1] at h2
    exact pollingSegment_stale_status _ op ridP hseg (by omega)
  · intro hseg
    have h1 : (stopChain s).chainRunId = s.chainRunId + 1 := rfl
    have h2 := (applyTrace_runIds_mono ops (stopChain s)).2
    rw [h1] at h2
    exact chainSegment_stale_status _ op ridC hseg (by omega)

/-- Witness for C1: the polling run with id 0 is stopped, a new run starts,
and a stale tick resumption of run 0 leaves the status record unchanged. -/
theorem C1_stop_invalidates_run_witness :
    (isPollingSegmentOf 0 (AutoOp.tickAfterBroadcastOp 0 1 1 5) →
      (applyOp (applyTrace (stopPolling initialAutomationState)
          [AutoOp.startPollingOp [0] "x" 1000])
          (AutoOp.tickAfterBroadcastOp 0 1 1 5)).status
        = (applyTrace (stopPolling initialAutomationState)
            [AutoOp.startPollingOp [0] "x" 1000]).status) ∧
    (isChainSegmentOf 0 (AutoOp.tickAfterBroadcastOp 0 1 1 5) →
      (applyOp (applyTrace (stopChain initialAutomationState)
          [AutoOp.startPollingOp [0] "x" 1000])
          (AutoOp.tickAfterBroadcastOp 0 1 1 5)).status
        = (applyTrace (stopChain initialAutomationState)
            [AutoOp.startPollingOp [0] "x" 1000]).status) :=
  C1_stop_invalidates_run initialAutomationState [AutoOp.startPollingOp [0] "x" 1000]
    (AutoOp.tickAfterBroadcastOp 0 1 1 5) 0 0 (Nat.le_refl 0) (Nat.le_refl 0)

/-- C3: `broadcast` returns the number of targets it actually wrote to
(always the length of its write list), and returns 0 exactly when the
trimmed command is empty or the target list is empty, or the busy filter
left no candidate (dialog declined, or "Send Ready" with nothing ready),
or the keyword-guard/confirmation gate declined, or no candidate was ready
after the optional ready wait; in the last case a warning is also emitted,
and whenever 0 is returned nothing at all is written. -/
theorem C3_broadcast_zero_cases (env : BroadcastEnv) (terminals : List Nat)
    (command : String) (options : BroadcastOptions)
    (behavior : InteractiveBroadcastBehavior) :
    (broadcast env terminals command options behavior).count
      = (broadcast env terminals command options behavior).writes.length ∧
    ((broadcast env terminals command options behavior).count = 0 ↔
      ((jsTrim command).toList.isEmpty || terminals.isEmpty) = true
      ∨ (broadcastCandidates env behavior (dedupeTerminals terminals)).1 = []
      ∨ confirmBroadcast env (jsTrim command) options = false
      ∨ broadcastReadyCandidates env behavior
          (broadcastCandidates env behavior (dedupeTerminals terminals)).1 = []) ∧
    ((broadcast env terminals command options behavior).count = 0 →
      (broadcast env terminals command options behavior).writes = []) ∧
    (((jsTrim command).toList.isEmpty || terminals.isEmpty) = false →
      (broadcastCandidates env behavior (dedupeTerminals terminals)).1 ≠ [] →
      confirmBroadcast env (jsTrim command) options = true →
      broadcastReadyCandidates env behavior
          (broadcastCandidates env behavior (dedupeTerminals terminals)).1 = [] →
      BroadcastWarning.noReadyTerminal
        ∈ (broadcast env terminals command options behavior).warnings) := by
  refine ⟨?_, ?_, ?_, ?_⟩
  · simp only [broadcast]
    split_ifs <;> simp [dispatchResolvedCommands_length]
  · simp only [broadcast]
    split_ifs <;>
      simp_all [List.isEmpty_iff, List.length_eq_zero, Bool.not_eq_true]
  · simp only [broadcast]
    split_ifs <;> simp_all [List.length_eq_zero]
  · intro h1 h2 h3 h4
    simp only [broadcast]
    split_ifs <;> simp_all [List.isEmpty_iff, Bool.not_eq_true]

/-- Witness for C3 at a concrete declined confirmation: one IDLE target,
confirm-before-send enabled but not accepted, so the count is 0, nothing
is written, and the zero-case disjunction holds through the declined
confirmation. -/
theorem C3_broadcast_zero_cases_witness :
    ((broadcast
        ⟨fun _ => TerminalState.IDLE, BusyChoice.dismissed, false, false, fun _ => true,
         fun _ => "T"⟩
        [7] "ls" ⟨true, false, [], 20, 20⟩ ⟨false, 0, false⟩).count = 0
      → (broadcast
        ⟨fun _ => TerminalState.IDLE, BusyChoice.dismissed, false, false, fun _ => true,
         fun _ => "T"⟩
        [7] "ls" ⟨true, false, [], 20, 20⟩ ⟨false, 0, false⟩).writes = []) ∧
    (broadcast
        ⟨fun _ => TerminalState.IDLE, BusyChoice.dismissed, false, false, fun _ => true,
         fun _ => "T"⟩
        [7] "ls" ⟨true, false, [], 20, 20⟩ ⟨false, 0, false⟩).count = 0 :=
  ⟨(C3_broadcast_zero_cases
      ⟨fun _ => TerminalState.IDLE, BusyChoice.dismissed, false, false, fun _ => true,
       fun _ => "T"⟩
      [7] "ls" ⟨true, false, [], 20, 20⟩ ⟨false, 0, false⟩).2.2.1,
   by decide⟩

/-- C10: `broadcast` and `broadcastNonInteractive` deduplicate the target
list before any other processing: both operations coincide with themselves
applied to the duplicate-free (first-occurrence-ordered) list, every
distinct terminal is written to at most once (the written target ids are
duplicate-free), and the returned count counts the distinct writes. -/
theorem C10_dedupe_first (env : BroadcastEnv) (terminals : List Nat)
    (command : String) (options : BroadcastOptions)
    (behavior : InteractiveBroadcastBehavior) (auto : AutomatedBroadcastBehavior) :
    broadcast env terminals command options behavior
      = broadcast env (dedupeTerminals terminals) command options behavior ∧
    broadcastNonInteractive env terminals command options auto
      = broadcastNonInteractive env (dedupeTerminals terminals) command options auto ∧
    ((broadcast env terminals command options behavior).writes.map Prod.fst).Nodup ∧
    ((broadcastNonInteractive env terminals command options auto).writes.map Prod.fst).Nodup ∧
    (broadcast env terminals command options behavior).count
      = (broadcast env terminals command options behavior).writes.length ∧
    (broadcastNonInteractive env terminals command options auto).count
      = (broadcastNonInteractive env terminals command options auto).writes.length := by
  refine ⟨?_, ?_, ?_, ?_, ?_, ?_⟩
  · simp only [broadcast, dedupeTerminals_idem, dedupeTerminals_isEmpty]
  · simp only [broadcastNonInteractive, dedupeTerminals_idem, dedupeTerminals_isEmpty]
  · simp only [broadcast]
    split_ifs <;>
      simp [dispatchResolvedCommands_map_fst,
        broadcastReadyCandidates_nodup _ _ _
          (broadcastCandidates_nodup _ _ _ (dedupeTerminals_nodup terminals))]
  · have hnodup : (if auto.readyOnly then
        (dedupeTerminals terminals).filter (fun t => isReadyState (env.stateOf t))
      else dedupeTerminals terminals).Nodup := by
      split
      · exact List.Nodup.filter _ (dedupeTerminals_nodup terminals)
      · exact dedupeTerminals_nodup terminals
    simp only [broadcastNonInteractive]
    split_ifs <;> simp_all [dispatchResolvedCommands_map_fst]
  · simp only [broadcast]
    split_ifs <;> simp [dispatchResolvedCommands_length]
  · simp only [broadcastNonInteractive]
    split_ifs <;> simp [dispatchResolvedCommands_length]

/-- C4: the command text `echo \x7bname\x7d \x7bindex\x7d \x7bname:quoted\x7d`
dispatched to the two targets named `A` and `B "x"` (in that order)
resolves, in send order, to `echo A 1 "A"` for the first target and
`echo B "x" 2 "B \"x\""` for the second: `\x7bindex\x7d` is the 1-based
send position, `\x7bname\x7d` the display name, `\x7bname:quoted\x7d` the
display name double-quoted with backslashes and quotes escaped. -/
theorem C4_placeholder_resolution :
    (broadcast
      ⟨fun _ => TerminalState.IDLE, BusyChoice.dismissed, false, false, fun _ => true,
       fun t => if t = 0 then "A" else "B \"x\""⟩
      [0, 1] "echo \x7bname\x7d \x7bindex\x7d \x7bname:quoted\x7d"
      ⟨false, true, [], 20, 20⟩ ⟨false, 0, false⟩).writes
      = [(0, "echo A 1 \"A\""), (1, "echo B \"x\" 2 \"B \\\"x\\\"\"")]
    ∧ quoteForShell "A" = "\"A\""
    ∧ quoteForShell "B \"x\"" = "\"B \\\"x\\\"\"" := by
  exact ⟨by decide, by decide, by decide⟩

/-- C7: the one-line scripts `delay:500` and `\x7bdelay: 500\x7d` parse to
the identical step value: a delay step of 500 ms carrying source line 1. -/
theorem C7_plain_and_braced_delay_identical :
    parseChainScript "delay:500" = parseChainScript "\x7bdelay: 500\x7d" ∧
    parseChainScript "delay:500" = Except.ok [ChainStep.delay 500 1] := by
  exact ⟨by decide, by decide⟩

/-- C5 counterexample: the bare directive line `wait_ready:5000,timeout:1000`
named by the claim is rejected by `parseChainScript` with a parse error
naming line 1 (the plain syntax accepts a single integer value only), so a
chain containing it never starts, and nothing can fail at ~1000 ms. -/
theorem C5_counterexample_bare_line_is_parse_error :
    parseChainScript "wait_ready:5000,timeout:1000"
      = Except.error
          "Line 1: invalid wait_ready value \"5000,timeout:1000\". Use number milliseconds." := by
  decide

/-- C5 (amended): the braced directive `\x7bwait_ready: 5000, timeout: 1000\x7d`
parses to a wait-ready step with stability 5000 ms and explicit timeout
1000 ms, and running that step against an open target that never becomes
ready fails at the probe following the 1000 ms explicit timeout (elapsed
1200 ms), not at the 5000 ms stability requirement, with an error naming
the failing step. -/
theorem C5_braced_wait_ready_times_out_at_explicit_timeout
    (isOpen isReady : Nat → Nat → Bool)
    (hopen : ∀ now t, isOpen now t = true)
    (hready : ∀ now t, isReady now t = false) :
    parseChainScript "\x7bwait_ready: 5000, timeout: 1000\x7d"
      = Except.ok [ChainStep.waitReady 5000 (some 1000) 1] ∧
    waitForReadyState isOpen isReady [0] 5000 1000 1
      = WaitOutcome.failed 1200 (waitTimeoutMessage 1 1000) ∧
    waitTimeoutMessage 1 1000 = "Step 1 wait_ready timed out after 1s." := by
  obtain rfl : isOpen = fun _ _ => true := funext fun a => funext fun b => hopen a b
  obtain rfl : isReady = fun _ _ => false := funext fun a => funext fun b => hready a b
  exact ⟨by decide, by decide, by decide⟩

/-- C2 counterexample: an interactive-classified session (command line
such as `claude` makes `looksLikeInteractiveCliCommand` true) that produces
no output at all — so no chunk arrives and the rolling buffer trivially
never matches any pattern (here the pattern set matches nothing at all) —
still reaches `CLI_WAITING`: the startup quiet probe armed at execution
start fires after the 1500 ms silence window and forces `CLI_WAITING`.
This refutes the claim for interleavings that include the quiet-probe
timer on an interactive session. -/
theorem C2_counterexample_quiet_probe_forces_waiting :
    getState (runTrace noMatchHeuristics
      [(0, TermEvent.execStart true 0), (0, TermEvent.quietFire 1500)]) 0
      = TerminalState.CLI_WAITING ∧
    (∀ pre suf, pre ++ suf
        = [(0, TermEvent.execStart true 0), (0, TermEvent.quietFire 1500)] →
      noMatchHeuristics.matchesPrompt
        (bufferOf (runTrace noMatchHeuristics pre) 0) = false) :=
  ⟨by decide, fun _ _ _ => rfl⟩

/-- C2 (amended): for every session and every event interleaving in which
the session is never classified as an interactive CLI, if the rolling
buffer never matches a configured ready-prompt pattern at any point of the
trace, the session's state never becomes `CLI_WAITING`.  (For sessions
classified interactive the quiet probe forces `CLI_WAITING` after a
silence window by design, so the restriction to non-interactive
classification is necessary.) -/
theorem C2_amended_no_prompt_no_waiting (H : TextHeuristics)
    (trace : List (Nat × TermEvent)) (t : Nat)
    (hcls : ∀ intr now, (t, TermEvent.execStart intr now) ∈ trace → intr = false)
    (hbuf : ∀ pre suf, pre ++ suf = trace →
      H.matchesPrompt (bufferOf (runTrace H pre) t) = false) :
    getState (runTrace H trace) t ≠ TerminalState.CLI_WAITING := by
  intro hw
  cases hq : runTrace H trace t with
  | none =>
    rw [getState, hq] at hw
    exact TerminalState.noConfusion hw
  | some tr =>
    have hinv := runFrom_not_waiting H t trace emptyTrackers
      (fun tr0 h0 => Option.noConfusion h0) hcls hbuf tr hq
    apply hinv.1
    rw [getState, hq] at hw
    exact hw

/-- Witness for C2's amended theorem: a non-interactive execution that
produces a chunk and an evaluation under never-matching patterns stays off
`CLI_WAITING`. -/
theorem C2_amended_witness :
    getState (runTrace noMatchHeuristics
      [(0, TermEvent.execStart false 0), (0, TermEvent.chunk "hello" 1 1),
       (0, TermEvent.evalFire)]) 0 ≠ TerminalState.CLI_WAITING :=
  C2_amended_no_prompt_no_waiting noMatchHeuristics
    [(0, TermEvent.execStart false 0), (0, TermEvent.chunk "hello" 1 1),
     (0, TermEvent.evalFire)] 0
    (fun intr now h => by simp at h; exact h.1)
    (fun _ _ _ => rfl)

/-- C6: once the buffered content matches a ready-prompt pattern, the next
evaluation from a busy state (`RUNNING_PROGRAM` or `CLI_THINKING`) moves
the tracker to `CLI_WAITING` and fires exactly one state-change event; the
buffer is untouched, re-evaluating the unchanged tracker leaves it exactly
as it is and fires no further event, and `setState` is a no-op whenever the
next state equals the current one. -/
theorem C6_prompt_transition_fires_once (H : TextHeuristics) (tr : TerminalTracker)
    (hMatch : H.matchesPrompt tr.buffer = true)
    (hBusy : tr.state = TerminalState.RUNNING_PROGRAM
      ∨ tr.state = TerminalState.CLI_THINKING) :
    (evaluateTracker H tr).1.state = TerminalState.CLI_WAITING ∧
    (evaluateTracker H tr).2 = [TerminalState.CLI_WAITING] ∧
    (evaluateTracker H tr).1.buffer = tr.buffer ∧
    (evaluateTracker H (evaluateTracker H tr).1).1 = (evaluateTracker H tr).1 ∧
    (evaluateTracker H (evaluateTracker H tr).1).2 = [] ∧
    (∀ u : TerminalTracker, setState u u.state = (u, [])) := by
  rcases hBusy with hst | hst <;>
    refine ⟨?_, ?_, ?_, ?_, ?_, setState_self⟩ <;>
    simp [evaluateTracker, setState, hMatch, hst]

/-- Witness for C6 at a concrete busy tracker whose buffer matches. -/
theorem C6_prompt_transition_witness :
    (evaluateTracker alwaysPromptHeuristics sampleBusyTracker).1.state
      = TerminalState.CLI_WAITING ∧
    (evaluateTracker alwaysPromptHeuristics sampleBusyTracker).2
      = [TerminalState.CLI_WAITING] ∧
    (evaluateTracker alwaysPromptHeuristics sampleBusyTracker).1.buffer
      = sampleBusyTracker.buffer ∧
    (evaluateTracker alwaysPromptHeuristics
        (evaluateTracker alwaysPromptHeuristics sampleBusyTracker).1).1
      = (evaluateTracker alwaysPromptHeuristics sampleBusyTracker).1 ∧
    (evaluateTracker alwaysPromptHeuristics
        (evaluateTracker alwaysPromptHeuristics sampleBusyTracker).1).2 = [] ∧
    (∀ u : TerminalTracker, setState u u.state = (u, [])) :=
  C6_prompt_transition_fires_once alwaysPromptHeuristics sampleBusyTracker rfl (Or.inl rfl)

/-- C9: a terminal for which no event (open, execution start or end, output
chunk, timer firing, or input-sent) was ever observed has no tracker, so
`getState` falls back to `IDLE` and `isReadyForBroadcast` is `true`;
consequently the dispatcher's busy filter never classifies it busy, and it
is among the returned candidates whenever it is a target and the dialog is
not dismissed outright. -/
theorem C9_unobserved_terminal_ready (H : TextHeuristics)
    (trace : List (Nat × TermEvent)) (t : Nat)
    (h : ∀ e ∈ trace, e.1 ≠ t) :
    runTrace H trace t = none ∧
    getState (runTrace H trace) t = TerminalState.IDLE ∧
    isReadyForBroadcast (runTrace H trace) t = true ∧
    (∀ (env : BroadcastEnv) (terminals : List Nat),
      env.stateOf = getState (runTrace H trace) →
      t ∉ terminals.filter (fun x => !isReadyState (env.stateOf x)) ∧
      (t ∈ terminals → env.busyChoice ≠ BusyChoice.dismissed →
        t ∈ (filterBusyTerminals env terminals).1)) := by
  have hnone : runTrace H trace t = none := runFrom_unobserved H trace emptyTrackers t h
  have hidle : getState (runTrace H trace) t = TerminalState.IDLE := by
    rw [getState, hnone]
  refine ⟨hnone, hidle, by rw [isReadyForBroadcast, hidle]; rfl, ?_⟩
  intro env terminals henv
  have hready : isReadyState (env.stateOf t) = true := by
    rw [henv, hidle]
    decide
  constructor
  · intro hmem
    have hb := (List.mem_filter.mp hmem).2
    rw [hready] at hb
    exact Bool.false_ne_true hb
  · intro ht hchoice
    simp only [filterBusyTerminals]
    split
    · exact ht
    · cases hc : env.busyChoice with
      | forceSend => exact ht
      | sendReady => exact List.mem_filter.mpr ⟨ht, hready⟩
      | dismissed => exact absurd hc hchoice

/-- Witness for C9: a trace touching only terminal 1 leaves terminal 0
untracked, idle, ready, and never busy-filtered. -/
theorem C9_unobserved_terminal_witness :
    runTrace noMatchHeuristics [(1, TermEvent.openTerm)] 0 = none ∧
    getState (runTrace noMatchHeuristics [(1, TermEvent.openTerm)]) 0
      = TerminalState.IDLE ∧
    isReadyForBroadcast (runTrace noMatchHeuristics [(1, TermEvent.openTerm)]) 0 = true ∧
    (∀ (env : BroadcastEnv) (terminals : List Nat),
      env.stateOf = getState (runTrace noMatchHeuristics [(1, TermEvent.openTerm)]) →
      0 ∉ terminals.filter (fun x => !isReadyState (env.stateOf x)) ∧
      (0 ∈ terminals → env.busyChoice ≠ BusyChoice.dismissed →
        0 ∈ (filterBusyTerminals env terminals).1)) :=
  C9_unobserved_terminal_ready noMatchHeuristics [(1, TermEvent.openTerm)] 0
    (by intro e he; simp at he; rw [he]; decide)

/-- C8: loading configured prompt patterns is total — a pattern empty after
trimming or rejected by the regex engine is skipped, never an error; when
at least one configured pattern compiles the active list is exactly the
compiled configured patterns; when none compiles the engine compiles the
full built-in default pattern list instead; and (the defaults being
accepted by the engine) the active pattern list is never empty. -/
theorem C8_pattern_loading_fallback (valid : String → String → Bool)
    (configured : List String)
    (hdef : ∀ p ∈ DEFAULT_CLI_PROMPT_PATTERNS, (compilePromptRegex valid p).isSome = true) :
    ((∃ p ∈ configured, (compilePromptRegex valid p).isSome = true) →
      reloadPromptRegexes valid configured = compilePromptRegexes valid configured) ∧
    ((∀ p ∈ configured, compilePromptRegex valid p = none) →
      reloadPromptRegexes valid configured
        = compilePromptRegexes valid DEFAULT_CLI_PROMPT_PATTERNS) ∧
    reloadPromptRegexes valid configured ≠ [] := by
  have hne : compilePromptRegexes valid DEFAULT_CLI_PROMPT_PATTERNS ≠ [] := by
    intro hnil
    simp only [compilePromptRegexes] at hnil
    have hmem :
        "(?:^|\\n)\\s*(?:codex|claude(?:\\s+code)?|qwen|gemini)?\\s*(?:>|❯|›|»|\\$)\\s*$"
          ∈ DEFAULT_CLI_PROMPT_PATTERNS := by
      simp [DEFAULT_CLI_PROMPT_PATTERNS]
    have h1 := List.filterMap_eq_nil_iff.mp hnil _ hmem
    have h2 := hdef _ hmem
    rw [h1] at h2
    exact Bool.false_ne_true h2
  refine ⟨?_, ?_, ?_⟩
  · rintro ⟨p, hp, hsome⟩
    have hlen : compilePromptRegexes valid configured ≠ [] := by
      intro hnil
      simp only [compilePromptRegexes] at hnil
      rw [List.filterMap_eq_nil_iff.mp hnil p hp] at hsome
      exact Bool.false_ne_true hsome
    simp only [reloadPromptRegexes]
    rw [if_pos (List.length_pos.mpr hlen)]
  · intro hall
    have hzero : compilePromptRegexes valid configured = [] := by
      simp only [compilePromptRegexes]
      exact List.filterMap_eq_nil_iff.mpr hall
    simp [reloadPromptRegexes, hzero]
  · simp only [reloadPromptRegexes]
    split
    · rename_i hpos
      exact List.ne_nil_of_length_pos hpos
    · exact hne

/-- Witness for C8: an engine accepting everything, with one empty and one
compiling configured pattern. -/
theorem C8_pattern_loading_witness :
    ((∃ p ∈ ["", "abc"], (compilePromptRegex (fun _ _ => true) p).isSome = true) →
      reloadPromptRegexes (fun _ _ => true) ["", "abc"]
        = compilePromptRegexes (fun _ _ => true) ["", "abc"]) ∧
    ((∀ p ∈ ["", "abc"], compilePromptRegex (fun _ _ => true) p = none) →
      reloadPromptRegexes (fun _ _ => true) ["", "abc"]
        = compilePromptRegexes (fun _ _ => true) DEFAULT_CLI_PROMPT_PATTERNS) ∧
    reloadPromptRegexes (fun _ _ => true) ["", "abc"] ≠ [] :=
  C8_pattern_loading_fallback (fun _ _ => true) ["", "abc"] (by decide)

/-- Witness for C5's amended theorem at the constant collaborator
functions: always open, never ready. -/
theorem C5_braced_wait_ready_witness :
    parseChainScript "\x7bwait_ready: 5000, timeout: 1000\x7d"
      = Except.ok [ChainStep.waitReady 5000 (some 1000) 1] ∧
    waitForReadyState (fun _ _ => true) (fun _ _ => false) [0] 5000 1000 1
      = WaitOutcome.failed 1200 (waitTimeoutMessage 1 1000) ∧
    waitTimeoutMessage 1 1000 = "Step 1 wait_ready timed out after 1s." :=
  C5_braced_wait_ready_times_out_at_explicit_timeout
    (fun _ _ => true) (fun _ _ => false) (fun _ _ => rfl) (fun _ _ => rfl)

end TerminalNexus
